import Mathlib

/-!
Verification development for the pacing/tension control core of the
narrative-transformer repository (src/tension.py and src/config.py).

Text is modelled as `List Char`. Python floats are modelled as exact
rationals (ℚ); every numeric comparison settled below has a margin far
larger than double-precision rounding error, so the exact-rational
semantics agrees with the floating-point program on all inputs used.
`np.std(xs) < 0.1` is embedded as `varOf xs < 1/100`, which is equivalent
for exact reals since both sides of the original comparison are
non-negative and squaring is monotone.
-/

/-- Sentence-terminator predicate: `re.split(r'[.!?]+', text)` splits on these
characters (src/tension.py line 71). -/
def isTerm (c : Char) : Bool := c == '.' || c == '!' || c == '?'

/-- Counts the maximal runs of non-terminator characters that contain at least one
non-whitespace character.  This equals
`len([s for s in re.split(r'[.!?]+', text) if s.strip()])`
(src/tension.py line 72): splitting on single terminator characters only adds
pieces that strip to empty, so counting stripped-nonempty pieces is unchanged.
The flag records whether the current piece has already seen a non-whitespace,
non-terminator character. -/
def countPieces : List Char → Bool → Nat
  | [], inPiece => if inPiece then 1 else 0
  | c :: cs, inPiece =>
      if isTerm c then (if inPiece then 1 else 0) + countPieces cs false
      else if c.isWhitespace then countPieces cs inPiece
      else countPieces cs true

/-- Sentence count with floor 1:
`sentence_count = max(len([s for s in sentences if s.strip()]), 1)`
(src/tension.py line 72). -/
def sentence_count (text : List Char) : Nat := max (countPieces text false) 1

/-- Number of question marks: `question_count = text.count('?')`
(src/tension.py line 75). -/
def question_count (text : List Char) : Nat := text.countP (fun c => c == '?')

/-- Lower-cased text: `text_lower = text.lower()` (src/tension.py line 70). -/
def toLowerText (text : List Char) : List Char := text.map Char.toLower

/-- Tests whether `needle` occurs at the start of `hay` (character-wise equality). -/
def matchesAt : List Char → List Char → Bool
  | [], _ => true
  | _ :: _, [] => false
  | n :: ns, h :: hs => n == h && matchesAt ns hs

/-- Fueled scanner for Python `str.count(sub)`: non-overlapping occurrences,
scanning left to right and skipping past each match.  `fuel` bounds recursion;
`fuel = hay.length` suffices for every non-empty needle, which is the only way
the source uses it. -/
def countSubAux : Nat → List Char → List Char → Nat
  | 0, _, _ => 0
  | _ + 1, _, [] => 0
  | fuel + 1, needle, c :: cs =>
      if matchesAt needle (c :: cs) then
        1 + countSubAux fuel needle ((c :: cs).drop needle.length)
      else countSubAux fuel needle cs

/-- Python `hay.count(needle)` for non-empty needles. -/
def count_substring (needle hay : List Char) : Nat := countSubAux hay.length needle hay

/-- Conditional/uncertainty marker words (src/tension.py lines 76-77). -/
def conditional_words : List (List Char) :=
  ["if", "maybe", "perhaps", "could", "might",
   "possibly", "uncertain", "unclear", "wonder"].map String.toList

/-- Interruption/incomplete-action marker words (src/tension.py line 84). -/
def incomplete_markers : List (List Char) :=
  ["suddenly", "before", "just then", "interrupted"].map String.toList

/-- `conditional_count = sum(text_lower.count(word) for word in conditional_words)`
(src/tension.py line 78). -/
def conditional_count (text : List Char) : Nat :=
  (conditional_words.map (fun w => count_substring w (toLowerText text))).sum

/-- `incomplete_count = sum(text_lower.count(marker) for marker in incomplete_markers)`
(src/tension.py line 85). -/
def incomplete_count (text : List Char) : Nat :=
  (incomplete_markers.map (fun w => count_substring w (toLowerText text))).sum

/-- Python `text.strip()`: drop whitespace from both ends. -/
def stripText (text : List Char) : List Char :=
  ((text.dropWhile Char.isWhitespace).reverse.dropWhile Char.isWhitespace).reverse

/-- Python `s.endswith(sfx)` for a concrete list of characters `sfx`. -/
def endsWithList (sfx s : List Char) : Bool := matchesAt sfx.reverse s.reverse

/-- `has_cliffhanger = text.strip().endswith(('?', '...', '…'))`
(src/tension.py line 81). -/
def has_cliffhanger (text : List Char) : Bool :=
  endsWithList ['?'] (stripText text) || endsWithList ['.', '.', '.'] (stripText text) ||
    endsWithList ['…'] (stripText text)

/-- Uncertainty estimate `TensionAnalyzer._estimate_uncertainty`
(src/tension.py lines 57-95):
`uncertainty = (question_count / sentence_count) * 0.4
             + (conditional_count / sentence_count) * 0.3
             + (incomplete_count / sentence_count) * 0.2
             + (0.1 if has_cliffhanger else 0)`,
clamped by `min(1.0, uncertainty)`. -/
def estimate_uncertainty (text : List Char) : ℚ :=
  min 1 ((question_count text : ℚ) / (sentence_count text : ℚ) * (2/5) +
    (conditional_count text : ℚ) / (sentence_count text : ℚ) * (3/10) +
    (incomplete_count text : ℚ) / (sentence_count text : ℚ) * (1/5) +
    (if has_cliffhanger text then (1:ℚ)/10 else 0))

/-- The question-mark summand of `estimate_uncertainty`:
`(question_count / sentence_count) * 0.4` (src/tension.py line 89). -/
def questionComponent (text : List Char) : ℚ :=
  (question_count text : ℚ) / (sentence_count text : ℚ) * (2/5)

/-- The remaining summands of `estimate_uncertainty` (src/tension.py lines 90-92). -/
def otherComponents (text : List Char) : ℚ :=
  (conditional_count text : ℚ) / (sentence_count text : ℚ) * (3/10) +
    (incomplete_count text : ℚ) / (sentence_count text : ℚ) * (1/5) +
    (if has_cliffhanger text then (1:ℚ)/10 else 0)

/-- Spec-comparison definition, following the specification's words rather than the
source: the number of sentences that end with or contain a question mark.  Sentences
are delimited by maximal runs of the terminator characters `.`, `!`, `?`; a sentence
counts when it is non-blank and its closing terminator run contains `?` (a `?` can
occur nowhere else, since it is itself a terminator).  Fueled recursion; the fuel
`s.length + 1` always suffices because each step consumes at least one character. -/
def question_sentences_aux : Nat → List Char → Nat
  | 0, _ => 0
  | _ + 1, [] => 0
  | fuel + 1, c :: cs =>
      (if ((c :: cs).takeWhile (fun x => !(isTerm x))).any (fun x => !x.isWhitespace) &&
          (((c :: cs).dropWhile (fun x => !(isTerm x))).takeWhile isTerm).contains '?' then 1
       else 0) +
        question_sentences_aux fuel (((c :: cs).dropWhile (fun x => !(isTerm x))).dropWhile isTerm)

/-- Spec-comparison definition: count of sentences ending with or containing `?`. -/
def question_sentences (s : List Char) : Nat := question_sentences_aux (s.length + 1) s

/-- Spec-comparison definition: the fraction of sentences that end with or contain `?`,
with the sentence count floored at 1. -/
def question_sentence_fraction (s : List Char) : ℚ :=
  (question_sentences s : ℚ) / (sentence_count s : ℚ)

/-- Rounding to two decimal places, modelling Python `round(x, 2)`.  (Python uses
round-half-to-even on binary floats; no value settled below sits at an exact
half-way point, so the rounding direction at ties never matters here.) -/
def roundTo2 (q : ℚ) : ℚ := ((⌊q * 100 + 1/2⌋ : ℤ) : ℚ) / 100

/-- `TensionAnalyzer.calculate_nti` (src/tension.py lines 21-45):
`nti = (1 - uncertainty) * (1 - sentiment)`, then `nti = max(0.0, nti)`, then
`round(nti, 2)`.  The sentiment backend (VADER) is an external library, so the
score is parametrised by the sentiment function. -/
def calculate_nti (sentiment : List Char → ℚ) (text : List Char) : ℚ :=
  roundTo2 (max 0 ((1 - estimate_uncertainty text) * (1 - sentiment text)))

/-- Modelled from the spec: the VADER compound-sentiment backend is an external
library, not part of this repository's sources.  The specification requires it to be
deterministic, bounded in [-1, +1], and to treat empty or whitespace-only input as
zero contribution.  Claims that depend on the backend are settled for every sentiment
function satisfying this contract. -/
def SentimentContract (sentiment : List Char → ℚ) : Prop :=
  (∀ t, -1 ≤ sentiment t ∧ sentiment t ≤ 1) ∧
    (∀ t, (∀ c ∈ t, c.isWhitespace = true) → sentiment t = 0)

/-- Beat names of the canonical 15-beat template, in order
(src/config.py, `SAVE_THE_CAT_BEATS`, lines 197-288). -/
def beat_names : List String :=
  ["Opening Image", "Theme Stated", "Setup", "Catalyst", "Debate",
   "Break into Two", "B Story", "Fun and Games", "Midpoint", "Bad Guys Close In",
   "All Is Lost", "Dark Night of the Soul", "Break into Three", "Finale", "Final Image"]

/-- Name-to-target-tension table `beat_tensions`
(src/tension.py lines 115-131). -/
def beat_tensions : List (String × ℚ) :=
  [("Opening Image", 3/10), ("Theme Stated", 7/20), ("Setup", 2/5),
   ("Catalyst", 7/10), ("Debate", 3/5), ("Break into Two", 3/4),
   ("B Story", 1/2), ("Fun and Games", 3/5), ("Midpoint", 3/2),
   ("Bad Guys Close In", 1), ("All Is Lost", 13/10), ("Dark Night of the Soul", 4/5),
   ("Break into Three", 1), ("Finale", 9/5), ("Final Image", 1/5)]

/-- `PacingController._generate_target_curve` (src/tension.py lines 107-142):
for each index below the template length, look the beat name up in `beat_tensions`
with default 0.5; beyond the template, 0.5. -/
def generate_target_curve (num_beats : Nat) : List ℚ :=
  (List.range num_beats).map (fun i =>
    if i < beat_names.length then
      (beat_tensions.lookup (beat_names.getD i "")).getD (1/2)
    else 1/2)

/-- Arithmetic mean, `np.mean` (division by zero never reached: only applied to
lists of length 3). -/
def meanOf (l : List ℚ) : ℚ := l.sum / (l.length : ℚ)

/-- The last (up to) three entries, Python `l[-3:]`. -/
def last3 (l : List ℚ) : List ℚ := l.drop (l.length - 3)

/-- Population variance, `np.std(l) ** 2`; `np.std(l) < 0.1` iff `varOf l < 1/100`. -/
def varOf (l : List ℚ) : ℚ :=
  (l.map (fun x => (x - meanOf l) * (x - meanOf l))).sum / (l.length : ℚ)

/-- The pacing directive labels returned by `PacingController.get_adjustment_hint`
(src/tension.py lines 144-191), one constructor per returned string. -/
inductive Directive where
  | maintainPacing
  | injectConflict
  | provideRespite
  | addVariety
  | highTension
  | risingAction
  | calmResolution
  | balancedPacing
deriving DecidableEq

/-- The position-only default branch (src/tension.py lines 183-191). -/
def default_hint (target : ℚ) : Directive :=
  if target > 12/10 then .highTension
  else if target > 7/10 then .risingAction
  else if target < 2/5 then .calmResolution
  else .balancedPacing

/-- The recent average (src/tension.py line 169):
mean of the last three history entries if at least three exist, otherwise the
just-appended actual value. -/
def recent_of (h : List ℚ) (a : ℚ) : ℚ := if 3 ≤ h.length then meanOf (last3 h) else a

/-- `PacingController.get_adjustment_hint` (src/tension.py lines 144-191), with the
controller state (the tension history) passed and returned explicitly.  The guard
compares against the length of the target curve, exactly as the source does; the
comparison rules run only when `actual` is supplied, in which case `actual` is first
appended to the history. -/
def get_adjustment_hint (num_beats : Nat) (history : List ℚ) (beat_index : Nat)
    (actual : Option ℚ) : Directive × List ℚ :=
  if (generate_target_curve num_beats).length ≤ beat_index then (.maintainPacing, history)
  else
    match actual with
    | none => (default_hint ((generate_target_curve num_beats).getD beat_index 0), history)
    | some a =>
      if recent_of (history ++ [a]) a <
          (generate_target_curve num_beats).getD beat_index 0 - 3/10 then
        (.injectConflict, history ++ [a])
      else if (generate_target_curve num_beats).getD beat_index 0 + 3/10 <
          recent_of (history ++ [a]) a then
        (.provideRespite, history ++ [a])
      else if 3 ≤ (history ++ [a]).length ∧ varOf (last3 (history ++ [a])) < 1/100 then
        (.addVariety, history ++ [a])
      else
        (default_hint ((generate_target_curve num_beats).getD beat_index 0), history ++ [a])

/-- The `actual` argument fed at position `i` of the round-trip run of claim C1:
nothing at position 0, and the target value of the preceding position afterwards. -/
def round_trip_actual (i : Nat) : Option ℚ :=
  if i = 0 then none else some ((generate_target_curve 15).getD (i - 1) 0)

/-- The sequence of directives returned by the 15-position round-trip run in which
the history always tracks the default target curve. -/
def round_trip_directives : List Directive :=
  ((List.range 15).foldl (fun acc i =>
    ((get_adjustment_hint 15 acc.1 i (round_trip_actual i)).2,
     acc.2 ++ [(get_adjustment_hint 15 acc.1 i (round_trip_actual i)).1]))
    (([] : List ℚ), ([] : List Directive))).2

/-- The target curve has exactly `num_beats` entries. -/
theorem length_generate_target_curve (num_beats : Nat) :
    (generate_target_curve num_beats).length = num_beats := by
  simp [generate_target_curve]

/-- The default 15-position target curve, as a literal list. -/
theorem curve15 : generate_target_curve 15 =
    [3/10, 7/20, 2/5, 7/10, 3/5, 3/4, 1/2, 3/5, 3/2, 1, 13/10, 4/5, 1, 9/5, 1/5] := by
  simp [generate_target_curve, beat_names, beat_tensions, List.lookup, List.range_succ]

/-- Lower-casing fixes whitespace characters. -/
theorem toLower_of_whitespace {c : Char} (h : c.isWhitespace = true) : c.toLower = c := by
  simp only [Char.isWhitespace, Bool.or_eq_true, decide_eq_true_eq] at h
  rcases h with ((h | h) | h) | h <;> subst h <;> decide

/-- Lower-casing a whitespace-only text yields a whitespace-only text. -/
theorem toLowerText_blank {t : List Char} (hb : ∀ c ∈ t, c.isWhitespace = true) :
    ∀ c ∈ toLowerText t, c.isWhitespace = true := by
  intro c hc
  simp only [toLowerText, List.mem_map] at hc
  obtain ⟨d, hd, rfl⟩ := hc
  rw [toLower_of_whitespace (hb d hd)]
  exact hb d hd

/-- A needle containing a non-whitespace character never matches at the start of a
whitespace-only haystack. -/
theorem matchesAt_eq_false_of_blank : ∀ {needle hay : List Char},
    (∃ c ∈ needle, c.isWhitespace = false) → (∀ c ∈ hay, c.isWhitespace = true) →
    matchesAt needle hay = false := by
  intro needle
  induction needle with
  | nil =>
    intro hay hn _
    obtain ⟨c, hc, _⟩ := hn
    exact absurd hc (List.not_mem_nil c)
  | cons n ns ih =>
    intro hay hn hh
    cases hay with
    | nil => rfl
    | cons h hs =>
      cases hb : (n == h) with
      | false => simp [matchesAt, hb]
      | true =>
        have hnh : n = h := beq_iff_eq.mp hb
        obtain ⟨c, hc, hcw⟩ := hn
        rcases List.mem_cons.mp hc with rfl | hc2
        · have hw : c.isWhitespace = true := by
            rw [hnh]; exact hh h (List.mem_cons_self h hs)
          rw [hw] at hcw
          exact absurd hcw (by decide)
        · have hm : matchesAt ns hs = false :=
            ih ⟨c, hc2, hcw⟩ (fun x hx => hh x (List.mem_cons_of_mem h hx))
          simp [matchesAt, hm]

/-- The fueled substring scanner finds nothing in a whitespace-only haystack when the
needle has a non-whitespace character. -/
theorem countSubAux_blank (fuel : Nat) (needle : List Char)
    (hn : ∃ c ∈ needle, c.isWhitespace = false) :
    ∀ hay : List Char, (∀ c ∈ hay, c.isWhitespace = true) → countSubAux fuel needle hay = 0 := by
  induction fuel with
  | zero => intro hay _; rfl
  | succ f ih =>
    intro hay hh
    cases hay with
    | nil => rfl
    | cons c cs =>
      have hm : matchesAt needle (c :: cs) = false := matchesAt_eq_false_of_blank hn hh
      simp only [countSubAux, hm, Bool.false_eq_true, if_false]
      exact ih cs (fun x hx => hh x (List.mem_cons_of_mem c hx))

/-- `count_substring` finds nothing in a whitespace-only haystack when the needle has
a non-whitespace character. -/
theorem count_substring_blank {needle hay : List Char}
    (hn : ∃ c ∈ needle, c.isWhitespace = false)
    (hh : ∀ c ∈ hay, c.isWhitespace = true) : count_substring needle hay = 0 :=
  countSubAux_blank hay.length needle hn hay hh

/-- Whitespace-only text has no question marks. -/
theorem question_count_blank {t : List Char} (hb : ∀ c ∈ t, c.isWhitespace = true) :
    question_count t = 0 := by
  unfold question_count
  rw [List.countP_eq_zero]
  intro a ha h
  have hw := hb a ha
  have ha' : a = '?' := by simpa using h
  rw [ha'] at hw
  exact absurd hw (by decide)

/-- Whitespace-only text contains no conditional marker words. -/
theorem conditional_count_blank {t : List Char} (hb : ∀ c ∈ t, c.isWhitespace = true) :
    conditional_count t = 0 := by
  unfold conditional_count
  apply List.sum_eq_zero
  intro x hx
  simp only [List.mem_map] at hx
  obtain ⟨w, hw, rfl⟩ := hx
  have hall : ∀ w ∈ conditional_words, ∃ c ∈ w, c.isWhitespace = false := by decide
  exact count_substring_blank (hall w hw) (toLowerText_blank hb)

/-- Whitespace-only text contains no interruption marker words. -/
theorem incomplete_count_blank {t : List Char} (hb : ∀ c ∈ t, c.isWhitespace = true) :
    incomplete_count t = 0 := by
  unfold incomplete_count
  apply List.sum_eq_zero
  intro x hx
  simp only [List.mem_map] at hx
  obtain ⟨w, hw, rfl⟩ := hx
  have hall : ∀ w ∈ incomplete_markers, ∃ c ∈ w, c.isWhitespace = false := by decide
  exact count_substring_blank (hall w hw) (toLowerText_blank hb)

/-- Dropping leading whitespace from a whitespace-only list leaves nothing. -/
theorem dropWhile_ws_nil {t : List Char} (hb : ∀ c ∈ t, c.isWhitespace = true) :
    t.dropWhile Char.isWhitespace = [] := by
  induction t with
  | nil => rfl
  | cons c cs ih =>
    rw [List.dropWhile_cons, hb c (List.mem_cons_self c cs)]
    simpa using ih (fun x hx => hb x (List.mem_cons_of_mem c hx))

/-- Stripping a whitespace-only text leaves the empty text. -/
theorem stripText_blank {t : List Char} (hb : ∀ c ∈ t, c.isWhitespace = true) :
    stripText t = [] := by
  unfold stripText
  rw [dropWhile_ws_nil hb]
  rfl

/-- Whitespace-only text has no cliffhanger ending. -/
theorem has_cliffhanger_blank {t : List Char} (hb : ∀ c ∈ t, c.isWhitespace = true) :
    has_cliffhanger t = false := by
  unfold has_cliffhanger
  rw [stripText_blank hb]
  rfl

/-- Whitespace-only text scores zero uncertainty. -/
theorem estimate_uncertainty_blank {t : List Char} (hb : ∀ c ∈ t, c.isWhitespace = true) :
    estimate_uncertainty t = 0 := by
  unfold estimate_uncertainty
  rw [question_count_blank hb, conditional_count_blank hb, incomplete_count_blank hb,
    has_cliffhanger_blank hb]
  norm_num [min_def]

/-- The uncertainty estimate is non-negative. -/
theorem estimate_uncertainty_nonneg (text : List Char) : 0 ≤ estimate_uncertainty text := by
  unfold estimate_uncertainty
  have h1 : (0:ℚ) ≤ (question_count text : ℚ) / (sentence_count text : ℚ) * (2/5) := by
    positivity
  have h2 : (0:ℚ) ≤ (conditional_count text : ℚ) / (sentence_count text : ℚ) * (3/10) := by
    positivity
  have h3 : (0:ℚ) ≤ (incomplete_count text : ℚ) / (sentence_count text : ℚ) * (1/5) := by
    positivity
  have h4 : (0:ℚ) ≤ (if has_cliffhanger text then (1:ℚ)/10 else 0) := by
    split
    · norm_num
    · exact le_refl 0
  exact le_min (by norm_num) (by linarith)

/-- The uncertainty estimate is clamped at one. -/
theorem estimate_uncertainty_le_one (text : List Char) : estimate_uncertainty text ≤ 1 := by
  unfold estimate_uncertainty
  exact min_le_left _ _

/-- Rounding to two decimals preserves non-negativity. -/
theorem roundTo2_nonneg {q : ℚ} (h : 0 ≤ q) : 0 ≤ roundTo2 q := by
  unfold roundTo2
  have h1 : (0:ℚ) ≤ q * 100 + 1/2 := by linarith
  have h2 : (0:ℤ) ≤ ⌊q * 100 + 1/2⌋ := Int.floor_nonneg.mpr h1
  have h3 : (0:ℚ) ≤ ((⌊q * 100 + 1/2⌋ : ℤ) : ℚ) := by exact_mod_cast h2
  exact div_nonneg h3 (by norm_num)

/-- Rounding the exact value one gives one. -/
theorem roundTo2_one : roundTo2 1 = 1 := by
  unfold roundTo2
  rw [show (1:ℚ) * 100 + 1/2 = 201/2 by norm_num]
  rw [show ⌊(201:ℚ)/2⌋ = 100 from Int.floor_eq_iff.mpr ⟨by norm_num, by norm_num⟩]
  norm_num

/-- The tension score is non-negative for every sentiment backend and every text. -/
theorem calculate_nti_nonneg (sentiment : List Char → ℚ) (text : List Char) :
    0 ≤ calculate_nti sentiment text :=
  roundTo2_nonneg (le_max_left 0 _)

/-- Under the sentiment contract, every whitespace-only text scores exactly one. -/
theorem calculate_nti_blank (sentiment : List Char → ℚ) (h : SentimentContract sentiment)
    (t : List Char) (hb : ∀ c ∈ t, c.isWhitespace = true) : calculate_nti sentiment t = 1 := by
  unfold calculate_nti
  rw [estimate_uncertainty_blank hb, h.2 t hb]
  rw [show ((1:ℚ) - 0) * (1 - 0) = 1 by norm_num]
  rw [show max (0:ℚ) 1 = 1 from max_eq_right (by norm_num)]
  exact roundTo2_one

/-- Claim C1, counterexample: in the round-trip run over positions 0..14 where the
history always tracks the default target curve, the call at position 3 returns
"inject conflict" and the call at position 11 returns "provide respite" — so the
claim that neither directive is ever returned is false. -/
theorem c1_round_trip_counterexample :
    round_trip_directives.getD 3 Directive.maintainPacing = Directive.injectConflict ∧
      round_trip_directives.getD 11 Directive.maintainPacing = Directive.provideRespite := by
  norm_num [round_trip_directives, round_trip_actual, List.range_succ, get_adjustment_hint,
    curve15, recent_of, meanOf, last3, varOf, default_hint]

/-- Claim C1, amended: in the round-trip run over positions 0..14 where the history
always tracks the default target curve, "inject conflict" is returned exactly at
positions 3, 8 and 13, "provide respite" exactly at positions 11 and 14, and at the
remaining ten positions neither of the two is returned (the target curve jumps by
more than 0.3 between adjacent positions, so a trailing average of earlier targets
leaves the ±0.3 band even though the history tracks the curve exactly). -/
theorem c1_round_trip_directives :
    round_trip_directives =
      [.calmResolution, .calmResolution, .balancedPacing, .injectConflict, .balancedPacing,
       .risingAction, .addVariety, .balancedPacing, .injectConflict, .risingAction,
       .highTension, .provideRespite, .risingAction, .injectConflict, .provideRespite] := by
  norm_num [round_trip_directives, round_trip_actual, List.range_succ, get_adjustment_hint,
    curve15, recent_of, meanOf, last3, varOf, default_hint]

/-- Claim C2, counterexample: a call at the valid position 9 (target 1.0) with no
`actual` argument, on a reachable one-entry history [0.2], leaves the history with at
least one entry whose recent average 0.2 is below target − 0.3, and yet the source
returns the default directive ("rising action"), not "inject conflict" — the
comparison rules run only when `actual` is supplied. -/
theorem c2_rule_skipped_without_actual :
    get_adjustment_hint 15 [] 0 (some (1/5)) = (Directive.calmResolution, [1/5]) ∧
    1 ≤ ([(1:ℚ)/5]).length ∧
    (1:ℚ)/5 < (generate_target_curve 15).getD 9 0 - 3/10 ∧
    get_adjustment_hint 15 [1/5] 9 none = (Directive.risingAction, [1/5]) := by
  refine ⟨?_, ?_, ?_, ?_⟩ <;>
    norm_num [get_adjustment_hint, curve15, recent_of, meanOf, last3, varOf, default_hint]

/-- Claim C2, amended: for every call of the directive operation at a valid position
that supplies an actual value (in which case the appended history necessarily has at
least one entry), if the recent average — the mean of the last three history entries,
or the just-appended value when fewer than three exist — is below
target[position] − 0.3, then the returned directive is "inject conflict", with first
precedence, and the history is extended by the supplied value. -/
theorem c2_inject_conflict_rule (num_beats : Nat) (history : List ℚ) (beat_index : Nat)
    (a : ℚ) (hpos : beat_index < num_beats)
    (hlow : recent_of (history ++ [a]) a <
      (generate_target_curve num_beats).getD beat_index 0 - 3/10) :
    get_adjustment_hint num_beats history beat_index (some a) =
      (Directive.injectConflict, history ++ [a]) := by
  have hc : ¬ ((generate_target_curve num_beats).length ≤ beat_index) := by
    rw [length_generate_target_curve]; omega
  simp only [get_adjustment_hint]
  rw [if_neg hc, if_pos hlow]

/-- Witness for claim C2: with target 1.0 (position 9) and three consecutive actual
values 0.2, the third call returns "inject conflict". -/
theorem c2_inject_conflict_rule_witness :
    get_adjustment_hint 15 [1/5, 1/5] 9 (some (1/5)) =
      (Directive.injectConflict, [1/5, 1/5] ++ [1/5]) :=
  c2_inject_conflict_rule 15 [1/5, 1/5] 9 (1/5) (by norm_num)
    (by norm_num [recent_of, meanOf, last3, curve15])

/-- Claim C3, counterexample: on the text "What??" the question-mark component of the
uncertainty sub-score is 0.4 · 2/1 = 0.8 (the source counts question-mark characters),
while 0.4 times the fraction of sentences ending with or containing a question mark is
0.4 · 1/1 = 0.4 — the two readings differ. -/
theorem c3_question_fraction_counterexample :
    questionComponent ("What??".toList) = 4/5 ∧
    (2/5 : ℚ) * question_sentence_fraction ("What??".toList) = 2/5 ∧
    questionComponent ("What??".toList) ≠
      (2/5 : ℚ) * question_sentence_fraction ("What??".toList) := by
  have h1 : question_count ['W', 'h', 'a', 't', '?', '?'] = 2 := by decide
  have h2 : sentence_count ['W', 'h', 'a', 't', '?', '?'] = 1 := by decide
  have h3 : question_sentences ['W', 'h', 'a', 't', '?', '?'] = 1 := by decide
  refine ⟨?_, ?_, ?_⟩ <;>
    norm_num [questionComponent, question_sentence_fraction, h1, h2, h3]

/-- Claim C3, amended: the question-mark component of the uncertainty sub-score
equals 0.4 times the number of question-mark characters in the text divided by the
sentence count (floored at 1) — not the fraction of sentences containing one; the
two coincide only when no sentence-terminating run has more than one `?`. -/
theorem c3_question_component (text : List Char) :
    estimate_uncertainty text = min 1 (questionComponent text + otherComponents text) ∧
    questionComponent text =
      (question_count text : ℚ) / (sentence_count text : ℚ) * (2/5) ∧
    1 ≤ sentence_count text := by
  refine ⟨?_, rfl, le_max_right _ 1⟩
  unfold estimate_uncertainty questionComponent otherComponents
  congr 1
  ring

/-- Claim C4 (confirmed): the target curve built with 15 positions is exactly the 15
named values in canonical order, and with 20 positions it is that sequence padded
with 0.5 at positions 15 through 19. -/
theorem c4_target_curve_values :
    generate_target_curve 15 =
      [3/10, 7/20, 2/5, 7/10, 3/5, 3/4, 1/2, 3/5, 3/2, 1, 13/10, 4/5, 1, 9/5, 1/5] ∧
    generate_target_curve 20 =
      [3/10, 7/20, 2/5, 7/10, 3/5, 3/4, 1/2, 3/5, 3/2, 1, 13/10, 4/5, 1, 9/5, 1/5] ++
        [1/2, 1/2, 1/2, 1/2, 1/2] := by
  constructor
  · exact curve15
  · simp [generate_target_curve, beat_names, beat_tensions, List.lookup, List.range_succ]

/-- Claim C5 (confirmed): for every position at or beyond the number of positions,
with or without an actual value, the directive operation returns the fixed fallback
"maintain current pacing" and leaves the history untouched (in particular a supplied
actual value is not appended). -/
theorem c5_out_of_range_fallback (num_beats : Nat) (history : List ℚ) (beat_index : Nat)
    (actual : Option ℚ) (h : num_beats ≤ beat_index) :
    get_adjustment_hint num_beats history beat_index actual =
      (Directive.maintainPacing, history) := by
  have hc : (generate_target_curve num_beats).length ≤ beat_index := by
    rw [length_generate_target_curve]; exact h
  simp [get_adjustment_hint, hc]

/-- Witness for claim C5: position 15 on a 15-position controller falls back and does
not append the supplied actual value. -/
theorem c5_out_of_range_fallback_witness :
    get_adjustment_hint 15 [7/10] 15 (some (9/10)) = (Directive.maintainPacing, [7/10]) :=
  c5_out_of_range_fallback 15 [7/10] 15 (some (9/10)) (le_refl 15)

/-- Claim C6 (confirmed): the score is the two-decimal rounding of
max(0, (1 − uncertainty) · (1 − sentiment)); for a sentiment backend bounded in
[-1, 1] the factors satisfy the stated bounds, the uncertainty sub-score always lies
in [0, 1], and the score is never negative. -/
theorem c6_score_formula (sentiment : List Char → ℚ) (text : List Char)
    (hs : ∀ u : List Char, -1 ≤ sentiment u ∧ sentiment u ≤ 1) :
    calculate_nti sentiment text =
      roundTo2 (max 0 ((1 - estimate_uncertainty text) * (1 - sentiment text))) ∧
    -1 ≤ sentiment text ∧ sentiment text ≤ 1 ∧
    0 ≤ estimate_uncertainty text ∧ estimate_uncertainty text ≤ 1 ∧
    0 ≤ calculate_nti sentiment text :=
  ⟨rfl, (hs text).1, (hs text).2, estimate_uncertainty_nonneg text,
    estimate_uncertainty_le_one text, calculate_nti_nonneg sentiment text⟩

/-- Witness for claim C6 at the constant-zero sentiment backend and a concrete text. -/
theorem c6_score_formula_witness :
    calculate_nti (fun _ => (0:ℚ)) ("The storm broke.".toList) =
      roundTo2 (max 0 ((1 - estimate_uncertainty ("The storm broke.".toList)) * (1 - 0))) ∧
    -(1:ℚ) ≤ 0 ∧ (0:ℚ) ≤ 1 ∧
    0 ≤ estimate_uncertainty ("The storm broke.".toList) ∧
    estimate_uncertainty ("The storm broke.".toList) ≤ 1 ∧
    0 ≤ calculate_nti (fun _ => (0:ℚ)) ("The storm broke.".toList) :=
  c6_score_formula (fun _ => 0) ("The storm broke.".toList)
    (fun u => ⟨by norm_num, by norm_num⟩)

/-- Claim C7 (confirmed): the scoring pipeline is total by construction in this
embedding, and the sentence-count denominator used by the uncertainty heuristic is
floored at 1, so it is non-zero (and positive as a rational) on every input,
including the empty text — no division by zero can occur. -/
theorem c7_total_and_floored (text : List Char) :
    1 ≤ sentence_count text ∧ (0:ℚ) < (sentence_count text : ℚ) := by
  have h : 0 < sentence_count text := Nat.lt_of_lt_of_le Nat.one_pos (le_max_right _ 1)
  exact ⟨le_max_right _ 1, by exact_mod_cast h⟩

/-- Witness for claim C7 at the empty text. -/
theorem c7_total_and_floored_witness :
    1 ≤ sentence_count ("".toList) ∧ (0:ℚ) < (sentence_count ("".toList) : ℚ) :=
  c7_total_and_floored ("".toList)

/-- Claim C8, counterexample: after three appended values 0.5 (a reachable history),
a call at the valid position 6 (target 0.5) without an actual value satisfies all the
claim's conditions — at least three history entries, variance of the last three below
0.01 (std below 0.1), recent average inside the ±0.3 band — and yet the source
returns the default directive "balanced pacing", not "add variety": the flatness rule
runs only when `actual` is supplied. -/
theorem c8_variety_skipped_without_actual :
    get_adjustment_hint 15 [] 0 (some (1/2)) = (Directive.calmResolution, [1/2]) ∧
    get_adjustment_hint 15 [1/2] 1 (some (1/2)) = (Directive.calmResolution, [1/2, 1/2]) ∧
    get_adjustment_hint 15 [1/2, 1/2] 2 (some (1/2)) =
      (Directive.addVariety, [1/2, 1/2, 1/2]) ∧
    3 ≤ ([(1:ℚ)/2, 1/2, 1/2]).length ∧
    varOf (last3 [(1:ℚ)/2, 1/2, 1/2]) < 1/100 ∧
    ¬ (meanOf (last3 [(1:ℚ)/2, 1/2, 1/2]) < (generate_target_curve 15).getD 6 0 - 3/10) ∧
    ¬ ((generate_target_curve 15).getD 6 0 + 3/10 < meanOf (last3 [(1:ℚ)/2, 1/2, 1/2])) ∧
    get_adjustment_hint 15 [1/2, 1/2, 1/2] 6 none =
      (Directive.balancedPacing, [1/2, 1/2, 1/2]) := by
  refine ⟨?_, ?_, ?_, ?_, ?_, ?_, ?_, ?_⟩ <;>
    norm_num [get_adjustment_hint, curve15, recent_of, meanOf, last3, varOf, default_hint]

/-- Claim C8, amended: for every call of the directive operation at a valid position
that supplies an actual value, if after the append at least three history entries
exist, the variance of the last three is below 0.01 (equivalently, their standard
deviation is below 0.1), and neither higher-precedence average rule fires, then the
returned directive is "add variety" and the history is extended by the supplied
value. -/
theorem c8_add_variety_rule (num_beats : Nat) (history : List ℚ) (beat_index : Nat)
    (a : ℚ) (hpos : beat_index < num_beats)
    (hnotlow : ¬ (recent_of (history ++ [a]) a <
      (generate_target_curve num_beats).getD beat_index 0 - 3/10))
    (hnothigh : ¬ ((generate_target_curve num_beats).getD beat_index 0 + 3/10 <
      recent_of (history ++ [a]) a))
    (h3 : 3 ≤ (history ++ [a]).length)
    (hflat : varOf (last3 (history ++ [a])) < 1/100) :
    get_adjustment_hint num_beats history beat_index (some a) =
      (Directive.addVariety, history ++ [a]) := by
  have hc : ¬ ((generate_target_curve num_beats).length ≤ beat_index) := by
    rw [length_generate_target_curve]; omega
  simp only [get_adjustment_hint]
  rw [if_neg hc, if_neg hnotlow, if_neg hnothigh, if_pos (And.intro h3 hflat)]

/-- Witness for claim C8: three consecutive values 0.5 at position 6 (target 0.5)
yield "add variety" on the third call. -/
theorem c8_add_variety_rule_witness :
    get_adjustment_hint 15 [1/2, 1/2] 6 (some (1/2)) =
      (Directive.addVariety, [1/2, 1/2] ++ [1/2]) :=
  c8_add_variety_rule 15 [1/2, 1/2] 6 (1/2) (by norm_num)
    (by norm_num [recent_of, meanOf, last3, curve15])
    (by norm_num [recent_of, meanOf, last3, curve15])
    (by norm_num)
    (by norm_num [varOf, meanOf, last3])

/-- Claim C9 (confirmed): for every sentiment backend satisfying the spec's contract,
the empty text and the three-space text produce identical scores (both functions are
total in this embedding, so no exception can arise). -/
theorem c9_blank_inputs_equal_score (sentiment : List Char → ℚ)
    (h : SentimentContract sentiment) :
    calculate_nti sentiment ("".toList) = calculate_nti sentiment ("   ".toList) := by
  rw [calculate_nti_blank sentiment h ("".toList) (by decide),
    calculate_nti_blank sentiment h ("   ".toList) (by decide)]

/-- Witness for claim C9 at the constant-zero sentiment backend. -/
theorem c9_blank_inputs_equal_score_witness :
    calculate_nti (fun _ => (0:ℚ)) ("".toList) = calculate_nti (fun _ => (0:ℚ)) ("   ".toList) :=
  c9_blank_inputs_equal_score (fun _ => 0)
    ⟨fun t => ⟨by norm_num, by norm_num⟩, fun t _ => rfl⟩

/-- Claim C10 (confirmed): for the empty text and every whitespace-only text, under
the spec's sentiment contract the uncertainty sub-score is 0 and the score is exactly
1.0 — degenerate input lands in the middle of the tension scale, not at 0. -/
theorem c10_blank_score_one (sentiment : List Char → ℚ) (h : SentimentContract sentiment)
    (t : List Char) (hb : ∀ c ∈ t, c.isWhitespace = true) :
    estimate_uncertainty t = 0 ∧ calculate_nti sentiment t = 1 :=
  ⟨estimate_uncertainty_blank hb, calculate_nti_blank sentiment h t hb⟩

/-- Witness for claim C10 at the constant-zero sentiment backend, for the empty text
and a two-space text. -/
theorem c10_blank_score_one_witness :
    (estimate_uncertainty ("".toList) = 0 ∧
      calculate_nti (fun _ => (0:ℚ)) ("".toList) = 1) ∧
    (estimate_uncertainty ("  ".toList) = 0 ∧
      calculate_nti (fun _ => (0:ℚ)) ("  ".toList) = 1) :=
  ⟨c10_blank_score_one (fun _ => 0) ⟨fun t => ⟨by norm_num, by norm_num⟩, fun t _ => rfl⟩
      ("".toList) (by decide),
    c10_blank_score_one (fun _ => 0) ⟨fun t => ⟨by norm_num, by norm_num⟩, fun t _ => rfl⟩
      ("  ".toList) (by decide)⟩
